import Mathlib

/-!
Shallow embedding of `src/main.py`: a single-file CRUD service over a
`users` table (SQLAlchemy + FastAPI).  The database is modelled as a list
of rows plus the auto-increment counter; each route handler becomes a
function from the request data and the pre-state to a result
(`Except Err _`) together with the post-state.  An `HTTPException` raised
before `db.commit()` leaves the session unflushed, so every error branch
returns the pre-state unchanged.
-/

namespace UserAPI

/-- Runtime values of the host language, as far as the checks in
`main.py` inspect them: `None`, integers, strings, booleans, and the
builtin type object `int` (which occurs in the expression
`user_update.age is not int` on line 134). -/
inductive PyVal where
  | none : PyVal
  | int (n : Int) : PyVal
  | str (s : String) : PyVal
  | bool (b : Bool) : PyVal
  | typeInt : PyVal
deriving Repr, DecidableEq

/-- Truthiness: `None` is falsy, numbers are truthy unless zero, strings
are truthy unless empty, booleans are themselves, a type object is truthy. -/
def PyVal.truthy : PyVal → Bool
  | .none => false
  | .int n => n != 0
  | .str s => s != ""
  | .bool b => b
  | .typeInt => true

/-- The `is not` identity test.  Identity of two values of different
shapes (an `int` instance versus the builtin type object `int`, the only
cross-shape comparison the program makes) is always false, so `is not`
holds; structural disequality is a sound model for that comparison. -/
def pyIsNot (a b : PyVal) : Bool := !(a == b)

/-- Short-circuit `or`: the first operand if truthy, else the second. -/
def pyOr (a b : PyVal) : PyVal := if a.truthy then a else b

/-- The reject condition of the age check in `update_user`, exactly as
written on line 134: `user_update.age is not int`, comparing the integer
value with the builtin type object `int`. -/
def ageRejectCond (age : Int) : Bool :=
  pyIsNot (PyVal.int age) PyVal.typeInt

/-- The reject condition of the sex check in `update_user`, exactly as
written on line 140: `user_update.sex != 'Female' or 'Male'`, which
parses as `(user_update.sex != 'Female') or 'Male'`. -/
def sexRejectCond (sex : String) : Bool :=
  (pyOr (PyVal.bool (sex != "Female")) (PyVal.str "Male")).truthy

/-- One row of the `users` table.  Timestamps are abstract instants
(`Nat`); `created_at` is set by the server default at insertion,
`updated_at` is null until the first update. -/
structure User where
  id : Nat
  name : String
  email : String
  age : Int
  sex : String
  created_at : Option Nat
  updated_at : Option Nat
deriving Repr, DecidableEq

/-- The creation input shape (`UserCreate`). -/
structure UserCreate where
  name : String
  email : String
  age : Int
  sex : String
deriving Repr, DecidableEq

/-- The full read view (`UserRead`). -/
structure UserRead where
  id : Nat
  name : String
  email : String
  age : Int
  sex : String
  created_at : Option Nat
  updated_at : Option Nat
deriving Repr, DecidableEq

/-- Projection of a row to its full view (`UserRead.from_orm`). -/
def UserRead.from_orm (u : User) : UserRead :=
  { id := u.id, name := u.name, email := u.email, age := u.age,
    sex := u.sex, created_at := u.created_at, updated_at := u.updated_at }

/-- The update input shape (`UserUpdate`): every field optional. -/
structure UserUpdate where
  name : Option String
  email : Option String
  age : Option Int
  sex : Option String
deriving Repr, DecidableEq

/-- Database state: the rows of the `users` table in insertion order,
plus the auto-increment counter for the primary key. -/
structure DB where
  rows : List User
  nextId : Nat
deriving Repr, DecidableEq

/-- The failures a handler can surface: `conflict` (HTTP 400),
`validation` (HTTP 422), `notFound` (HTTP 404), and `unhandled` for an
exception no handler guards against (surfaced as a 500, not a typed
HTTPException). -/
inductive Err where
  | conflict (detail : String)
  | validation (detail : String)
  | notFound (detail : String)
  | unhandled (detail : String)
deriving Repr, DecidableEq

/-- The delete handler's response body `{'message': ...}`. -/
structure DeleteResponse where
  message : String
deriving Repr, DecidableEq

/-- Handler of POST /users/ (`create_user`, lines 80-96): pre-check the
email for uniqueness, check sex is one of the two literals, check the
email contains the character `@` (the `in` test on a string with a
one-character operand is character membership), then insert and
commit. -/
def create_user (user : UserCreate) (now : Nat) (db : DB) :
    Except Err UserRead × DB :=
  match db.rows.find? (fun u => u.email == user.email) with
  | some _ => (.error (.conflict "Email already in use"), db)
  | none =>
    if user.sex != "Female" && user.sex != "Male" then
      (.error (.validation "Please choose Female or Male for sex"), db)
    else if !(user.email.data.contains '@') then
      (.error (.validation "Please enter a valid email address"), db)
    else
      let db_user : User :=
        { id := db.nextId, name := user.name, email := user.email,
          age := user.age, sex := user.sex,
          created_at := some now, updated_at := none }
      (.ok (UserRead.from_orm db_user),
       { rows := db.rows ++ [db_user], nextId := db.nextId + 1 })

/-- Handler of GET /users/user_id (`read_user`, lines 99-104). -/
def read_user (user_id : Nat) (db : DB) : Except Err UserRead :=
  match db.rows.find? (fun u => u.id == user_id) with
  | none => .error (.notFound "User not found")
  | some db_user => .ok (UserRead.from_orm db_user)

/-- Handler of GET /user/?email=... (`read_user_by_email`, lines 107-112). -/
def read_user_by_email (email : String) (db : DB) : Except Err UserRead :=
  match db.rows.find? (fun u => u.email == email) with
  | none => .error (.notFound "User not found")
  | some db_user => .ok (UserRead.from_orm db_user)

/-- Step for name in `update_user` (lines 123-124): if present,
overwrite unconditionally. -/
def applyName (uu : UserUpdate) (u : User) : User :=
  match uu.name with
  | some n => { u with name := n }
  | none => u

/-- Step for email in `update_user` (lines 125-132): if present, query
for a row already holding that email; raise Conflict when one exists
with a different id, otherwise overwrite. -/
def applyEmail (user_id : Nat) (uu : UserUpdate) (db : DB) (u : User) :
    Except Err User :=
  match uu.email with
  | some e =>
    match db.rows.find? (fun v => v.email == e) with
    | some existing_user =>
      if existing_user.id != user_id then
        .error (.conflict "Email already registered")
      else
        .ok { u with email := e }
    | none => .ok { u with email := e }
  | none => .ok u

/-- Step for age in `update_user` (lines 133-138): if present, test the
reject condition `user_update.age is not int` and raise Validation when
it holds, otherwise overwrite. -/
def applyAge (uu : UserUpdate) (u : User) : Except Err User :=
  match uu.age with
  | some a =>
    if ageRejectCond a then
      .error (.validation "Please enter a valid age")
    else
      .ok { u with age := a }
  | none => .ok u

/-- Step for sex in `update_user` (lines 139-144): if present, test the
reject condition `user_update.sex != 'Female' or 'Male'` and raise
Validation when it holds, otherwise overwrite. -/
def applySex (uu : UserUpdate) (u : User) : Except Err User :=
  match uu.sex with
  | some s =>
    if sexRejectCond s then
      .error (.validation "Please enter Female or Male")
    else
      .ok { u with sex := s }
  | none => .ok u

/-- The field-by-field mutation part of `update_user` (lines 123-145),
on the row found by id: the four optional fields in source order, then
`updated_at` set to the current time (line 145). -/
def applyUpdate (user_id : Nat) (uu : UserUpdate) (now : Nat) (db : DB)
    (u0 : User) : Except Err User := do
  let u1 := applyName uu u0
  let u2 ← applyEmail user_id uu db u1
  let u3 ← applyAge uu u2
  let u4 ← applySex uu u3
  pure { u4 with updated_at := some now }

/-- Handler of PATCH /users/user_id (`update_user`, lines 115-150):
look up the row by id (404 when absent), apply the present fields, then
commit: the row with that primary key is replaced by the mutated
object.  A raise before the commit leaves the state unchanged. -/
def update_user (user_id : Nat) (uu : UserUpdate) (now : Nat) (db : DB) :
    Except Err UserRead × DB :=
  match db.rows.find? (fun u => u.id == user_id) with
  | none => (.error (.notFound "User not found"), db)
  | some db_user =>
    match applyUpdate user_id uu now db db_user with
    | .error e => (.error e, db)
    | .ok newUser =>
      (.ok (UserRead.from_orm newUser),
       { db with rows := db.rows.map (fun u => if u.id == user_id then newUser else u) })

/-- Handler of DELETE /delete/user_id (`delete_user`, lines 153-158):
look up the row by id with no existence guard; when absent, `db.delete(None)`
raises SQLAlchemy's UnmappedInstanceError, an exception nothing
catches, so the request fails with an untyped 500 and the session is
closed without commit. -/
def delete_user (user_id : Nat) (db : DB) : Except Err DeleteResponse × DB :=
  match db.rows.find? (fun u => u.id == user_id) with
  | none => (.error (.unhandled "Class NoneType is not mapped"), db)
  | some db_user =>
    (.ok { message := "User has been deleted" },
     { db with rows := db.rows.eraseP (fun u => u.id == db_user.id) })

/-- Primary-key uniqueness: the ids of the rows are pairwise distinct
(maintained by the storage engine's primary-key constraint). -/
def DB.idsNodup (db : DB) : Prop := (db.rows.map User.id).Nodup

/-- Email uniqueness across rows (declared unique on the table and
re-checked by the application before every insert and email update). -/
def DB.emailsNodup (db : DB) : Prop := (db.rows.map User.email).Nodup

/-- Freshness of the auto-increment counter: every stored id is below
`nextId`, so a newly assigned id collides with no existing row. -/
def DB.idsFresh (db : DB) : Prop := ∀ u ∈ db.rows, u.id < db.nextId

/-- A concrete database with one user, for witnesses. -/
def annUser : User :=
  { id := 1, name := "Ann", email := "ann@x.com", age := 30,
    sex := "Female", created_at := some 0, updated_at := none }

/-- A one-row state whose counter is past the stored id. -/
def db0 : DB := { rows := [annUser], nextId := 2 }

/-- A second concrete user, for witnesses needing two rows. -/
def bobUser : User :=
  { id := 2, name := "Bob", email := "bob@x.com", age := 20,
    sex := "Male", created_at := some 3, updated_at := none }

/-- A two-row state with distinct ids and emails. -/
def db1 : DB := { rows := [annUser, bobUser], nextId := 3 }

/-! Facts about the two update-path reject conditions: both are
identically true, because an `int` instance is never the type object
`int`, and `x != 'Female' or 'Male'` is truthy whatever `x` is. -/

theorem ageRejectCond_eq_true (a : Int) : ageRejectCond a = true := rfl

theorem sexRejectCond_eq_true (s : String) : sexRejectCond s = true := by
  by_cases h : s = "Female" <;>
    simp [sexRejectCond, pyOr, PyVal.truthy, h]

theorem applyAge_some {uu : UserUpdate} {a : Int}
    (h : uu.age = some a) (u : User) :
    applyAge uu u = .error (.validation "Please enter a valid age") := by
  simp [applyAge, h, ageRejectCond_eq_true]

theorem applyAge_none {uu : UserUpdate} (h : uu.age = none) (u : User) :
    applyAge uu u = .ok u := by
  simp [applyAge, h]

theorem applySex_some {uu : UserUpdate} {s : String}
    (h : uu.sex = some s) (u : User) :
    applySex uu u = .error (.validation "Please enter Female or Male") := by
  simp [applySex, h, sexRejectCond_eq_true]

theorem applySex_none {uu : UserUpdate} (h : uu.sex = none) (u : User) :
    applySex uu u = .ok u := by
  simp [applySex, h]

theorem applyEmail_none (user_id : Nat) {uu : UserUpdate} (db : DB)
    (h : uu.email = none) (u : User) :
    applyEmail user_id uu db u = .ok u := by
  simp [applyEmail, h]

theorem applyUpdate_sex_some (user_id : Nat) {uu : UserUpdate} (now : Nat)
    (db : DB) (u0 : User) {s : String} (hs : uu.sex = some s) :
    ∃ e, applyUpdate user_id uu now db u0 = .error e ∧
      (uu.email = none → uu.age = none →
        e = Err.validation "Please enter Female or Male") := by
  unfold applyUpdate
  cases hE : applyEmail user_id uu db (applyName uu u0) with
  | error e =>
    refine ⟨e, by simp [hE, Bind.bind, Except.bind], fun hem _ => ?_⟩
    rw [applyEmail_none user_id db hem (applyName uu u0)] at hE
    exact absurd hE (by simp)
  | ok u2 =>
    cases hA : applyAge uu u2 with
    | error e =>
      refine ⟨e, by simp [hE, hA, Bind.bind, Except.bind], fun _ hag => ?_⟩
      rw [applyAge_none hag u2] at hA
      exact absurd hA (by simp)
    | ok u3 =>
      refine ⟨Err.validation "Please enter Female or Male", ?_, fun _ _ => rfl⟩
      simp [hE, hA, applySex_some hs u3, Bind.bind, Except.bind]

theorem applyUpdate_age_some (user_id : Nat) {uu : UserUpdate} (now : Nat)
    (db : DB) (u0 : User) {a : Int} (ha : uu.age = some a) :
    ∃ e, applyUpdate user_id uu now db u0 = .error e ∧
      (uu.email = none → e = Err.validation "Please enter a valid age") := by
  unfold applyUpdate
  cases hE : applyEmail user_id uu db (applyName uu u0) with
  | error e =>
    refine ⟨e, by simp [hE, Bind.bind, Except.bind], fun hem => ?_⟩
    rw [applyEmail_none user_id db hem (applyName uu u0)] at hE
    exact absurd hE (by simp)
  | ok u2 =>
    refine ⟨Err.validation "Please enter a valid age", ?_, fun _ => rfl⟩
    simp [hE, applyAge_some ha u2, Bind.bind, Except.bind]

/-- C1: the specification describes the sex check of the update path
as never rejecting, with the supplied sex always written.  In the
source the condition
`user_update.sex != 'Female' or 'Male'` is always truthy, so the check
always rejects: for every existing user id and every update whose sex
field is present, the operation fails with some typed error, the
database is unchanged (so the sex value is never written), and when
email and age are absent the failure is exactly the sex Validation
error. -/
theorem C1_sex_update_always_rejects (user_id : Nat) (uu : UserUpdate)
    (now : Nat) (db : DB) (s : String)
    (hrow : (db.rows.find? (fun u => u.id == user_id)).isSome = true)
    (hs : uu.sex = some s) :
    ∃ e, update_user user_id uu now db = (.error e, db) ∧
      (uu.email = none → uu.age = none →
        e = Err.validation "Please enter Female or Male") := by
  obtain ⟨u0, hu0⟩ := Option.isSome_iff_exists.mp hrow
  obtain ⟨e, he, himp⟩ := applyUpdate_sex_some user_id now db u0 hs
  exact ⟨e, by simp [update_user, hu0, he], himp⟩

/-- C1 counterexample: updating the single existing user with the
perfectly valid sex `"Female"` is rejected with the sex Validation
error, refuting the description of the reject branch as never firing
with the value written. -/
theorem C1_counterexample :
    (update_user 1 { name := none, email := none, age := none,
                     sex := some "Female" } 5 db0).1
      = .error (.validation "Please enter Female or Male") := rfl

/-- C1 witness: the amended theorem applied at a concrete input. -/
theorem C1_witness :
    ∃ e, update_user 1 { name := none, email := none, age := none,
                         sex := some "Male" } 6 db0 = (.error e, db0) := by
  obtain ⟨e, he, -⟩ := C1_sex_update_always_rejects 1
    { name := none, email := none, age := none, sex := some "Male" }
    6 db0 "Male" rfl rfl
  exact ⟨e, he⟩

/-- C2: the specification describes the age check of the update path
as always taking the valid branch, with the supplied age always
written.  In the source the condition `user_update.age is not int` compares an `int` instance
with the type object `int` and is therefore always true, so the check
always rejects: for every existing user id and every update whose age
field is present, the operation fails with some typed error, the
database is unchanged (so the age value is never written), and when
email is absent the failure is exactly the age Validation error. -/
theorem C2_age_update_always_rejects (user_id : Nat) (uu : UserUpdate)
    (now : Nat) (db : DB) (a : Int)
    (hrow : (db.rows.find? (fun u => u.id == user_id)).isSome = true)
    (ha : uu.age = some a) :
    ∃ e, update_user user_id uu now db = (.error e, db) ∧
      (uu.email = none → e = Err.validation "Please enter a valid age") := by
  obtain ⟨u0, hu0⟩ := Option.isSome_iff_exists.mp hrow
  obtain ⟨e, he, himp⟩ := applyUpdate_age_some user_id now db u0 ha
  exact ⟨e, by simp [update_user, hu0, he], himp⟩

/-- C2 counterexample: updating the single existing user with the
integer age 42 is rejected with the age Validation error, refuting the
description of the check as always taking the valid branch with the
value written. -/
theorem C2_counterexample :
    (update_user 1 { name := none, email := none, age := some 42,
                     sex := none } 5 db0).1
      = .error (.validation "Please enter a valid age") := rfl

/-- C2 witness: the amended theorem applied at a concrete input. -/
theorem C2_witness :
    ∃ e, update_user 1 { name := none, email := none, age := some 30,
                         sex := none } 6 db0 = (.error e, db0) := by
  obtain ⟨e, he, -⟩ := C2_age_update_always_rejects 1
    { name := none, email := none, age := some 30, sex := none }
    6 db0 30 rfl rfl
  exact ⟨e, he⟩

/-- C3: creating a user with an unused email, sex in the two accepted
literals, and an email containing `@` succeeds, appends exactly one row,
returns the persisted view with the system-assigned id and the supplied
fields, and a subsequent read by that id returns the same view.  The
auto-increment freshness invariant `idsFresh` is what makes the assigned
id collide with no existing row. -/
theorem C3_create_then_read (user : UserCreate) (now : Nat) (db : DB)
    (hfresh : db.idsFresh)
    (hemail : ∀ u ∈ db.rows, u.email ≠ user.email)
    (hsex : user.sex = "Female" ∨ user.sex = "Male")
    (hat : user.email.data.contains '@' = true) :
    ∃ r db', create_user user now db = (.ok r, db') ∧
      r.id = db.nextId ∧ r.name = user.name ∧ r.email = user.email ∧
      r.age = user.age ∧ r.sex = user.sex ∧
      db'.rows.length = db.rows.length + 1 ∧
      read_user r.id db' = .ok r := by
  have hfind : db.rows.find? (fun u => u.email == user.email) = none :=
    List.find?_eq_none.2 (fun u hu => by simp [hemail u hu])
  have hsexcond : (user.sex != "Female" && user.sex != "Male") = false := by
    rcases hsex with h | h <;> simp [h]
  refine ⟨UserRead.from_orm
      { id := db.nextId, name := user.name, email := user.email,
        age := user.age, sex := user.sex,
        created_at := some now, updated_at := none },
    { rows := db.rows ++
        [{ id := db.nextId, name := user.name, email := user.email,
           age := user.age, sex := user.sex,
           created_at := some now, updated_at := none }],
      nextId := db.nextId + 1 },
    ?_, rfl, rfl, rfl, rfl, rfl, by simp, ?_⟩
  · have hat' : '@' ∈ user.email.data := by simpa using hat
    simp [create_user, hfind, hsexcond, hat']
  · have hold : db.rows.find? (fun u => u.id == db.nextId) = none :=
      List.find?_eq_none.2
        (fun u hu => by simp [Nat.ne_of_lt (hfresh u hu)])
    simp [read_user, UserRead.from_orm, List.find?_append, hold]

/-- C3 witness: the theorem applied at a concrete one-row state. -/
theorem C3_witness :
    ∃ r db', create_user
        { name := "Bob", email := "bob@x.com", age := 20, sex := "Male" }
        7 db0 = (.ok r, db') ∧ read_user r.id db' = .ok r := by
  obtain ⟨r, db', h1, -, -, -, -, -, -, h8⟩ :=
    C3_create_then_read
      { name := "Bob", email := "bob@x.com", age := 20, sex := "Male" }
      7 db0 (by unfold DB.idsFresh; decide) (by decide) (Or.inr rfl)
      (by decide)
  exact ⟨r, db', h1, h8⟩

/-- C4: creating a user whose email is already used signals the
Conflict failure and leaves the database unchanged (no row inserted),
regardless of name, age and sex, because the uniqueness pre-check runs
before the sex and email-format checks. -/
theorem C4_create_conflict (user : UserCreate) (now : Nat) (db : DB)
    (h : ∃ v ∈ db.rows, v.email = user.email) :
    create_user user now db
      = (.error (.conflict "Email already in use"), db) := by
  obtain ⟨v, hv, hve⟩ := h
  have hsome : (db.rows.find? (fun u => u.email == user.email)).isSome
      = true :=
    List.find?_isSome.2 ⟨v, hv, by simp [hve]⟩
  obtain ⟨w, hw⟩ := Option.isSome_iff_exists.mp hsome
  simp [create_user, hw]

/-- C4 witness: a second user with the already-used email and an
invalid sex still gets Conflict, with the state unchanged. -/
theorem C4_witness :
    create_user
        { name := "Bob", email := "ann@x.com", age := 7, sex := "Other" }
        9 db0
      = (.error (.conflict "Email already in use"), db0) :=
  C4_create_conflict
    { name := "Bob", email := "ann@x.com", age := 7, sex := "Other" }
    9 db0 ⟨annUser, by simp [db0], rfl⟩

/-- C5: deleting an id with no matching row does not produce a typed
Not-Found failure: the lookup yields nothing and the handler reaches
the unguarded `db.delete(None)`, which raises an exception nothing
catches; the state is unchanged. -/
theorem C5_delete_missing_unguarded (user_id : Nat) (db : DB)
    (h : ∀ u ∈ db.rows, u.id ≠ user_id) :
    delete_user user_id db
        = (.error (.unhandled "Class NoneType is not mapped"), db) ∧
      ∀ s, (delete_user user_id db).1 ≠ .error (.notFound s) := by
  have hfind : db.rows.find? (fun u => u.id == user_id) = none :=
    List.find?_eq_none.2 (fun u hu => by simp [h u hu])
  refine ⟨by simp [delete_user, hfind], fun s => ?_⟩
  simp [delete_user, hfind]

/-- C5 witness: the theorem applied to an absent id. -/
theorem C5_witness :
    delete_user 9 db0
      = (.error (.unhandled "Class NoneType is not mapped"), db0) :=
  (C5_delete_missing_unguarded 9 db0 (by decide)).1

/-- C8: read-by-id signals Not-Found exactly when no row has the id,
read-by-email signals Not-Found exactly when no row's email equals the
given string, and in the remaining cases each returns the full view of
a matching row. -/
theorem C8_read_not_found_iff (user_id : Nat) (email : String) (db : DB) :
    (read_user user_id db = .error (.notFound "User not found")
        ↔ ∀ u ∈ db.rows, u.id ≠ user_id) ∧
    ((∃ u ∈ db.rows, u.id = user_id) →
      ∃ u ∈ db.rows, u.id = user_id ∧
        read_user user_id db = .ok (UserRead.from_orm u)) ∧
    (read_user_by_email email db = .error (.notFound "User not found")
        ↔ ∀ u ∈ db.rows, u.email ≠ email) ∧
    ((∃ u ∈ db.rows, u.email = email) →
      ∃ u ∈ db.rows, u.email = email ∧
        read_user_by_email email db = .ok (UserRead.from_orm u)) := by
  refine ⟨?_, ?_, ?_, ?_⟩
  · cases hfind : db.rows.find? (fun u => u.id == user_id) with
    | none =>
      exact iff_of_true (by simp [read_user, hfind])
        (fun u hu => by simpa using List.find?_eq_none.1 hfind u hu)
    | some w =>
      have hw : w.id = user_id := by simpa using List.find?_some hfind
      have hmem := List.mem_of_find?_eq_some hfind
      exact iff_of_false (by simp [read_user, hfind])
        (fun hall => hall w hmem hw)
  · rintro ⟨u, hu, hid⟩
    have hsome : (db.rows.find? (fun v => v.id == user_id)).isSome
        = true := List.find?_isSome.2 ⟨u, hu, by simp [hid]⟩
    obtain ⟨w, hw⟩ := Option.isSome_iff_exists.mp hsome
    exact ⟨w, List.mem_of_find?_eq_some hw,
      by simpa using List.find?_some hw, by simp [read_user, hw]⟩
  · cases hfind : db.rows.find? (fun u => u.email == email) with
    | none =>
      exact iff_of_true (by simp [read_user_by_email, hfind])
        (fun u hu => by simpa using List.find?_eq_none.1 hfind u hu)
    | some w =>
      have hw : w.email = email := by simpa using List.find?_some hfind
      have hmem := List.mem_of_find?_eq_some hfind
      exact iff_of_false (by simp [read_user_by_email, hfind])
        (fun hall => hall w hmem hw)
  · rintro ⟨u, hu, hem⟩
    have hsome : (db.rows.find? (fun v => v.email == email)).isSome
        = true := List.find?_isSome.2 ⟨u, hu, by simp [hem]⟩
    obtain ⟨w, hw⟩ := Option.isSome_iff_exists.mp hsome
    exact ⟨w, List.mem_of_find?_eq_some hw,
      by simpa using List.find?_some hw,
      by simp [read_user_by_email, hw]⟩

/-- C8 witness: at a concrete state, an absent id yields Not-Found and
a present email yields the stored view. -/
theorem C8_witness :
    read_user 2 db0 = .error (.notFound "User not found") ∧
      ∃ u ∈ db0.rows, u.email = "ann@x.com" ∧
        read_user_by_email "ann@x.com" db0 = .ok (UserRead.from_orm u) := by
  have h := C8_read_not_found_iff 2 "ann@x.com" db0
  exact ⟨h.1.mpr (by decide), h.2.2.2 ⟨annUser, by simp [db0], rfl⟩⟩

/-- C10: whenever the create or partial-update operation signals a
failure, the failure was raised before the commit, so the post-state
equals the pre-state (both handlers only ever signal typed failures). -/
theorem C10_write_errors_preserve_state (user : UserCreate)
    (user_id : Nat) (uu : UserUpdate) (now : Nat) (db : DB) :
    (∀ e, (create_user user now db).1 = .error e →
      (create_user user now db).2 = db) ∧
    (∀ e, (update_user user_id uu now db).1 = .error e →
      (update_user user_id uu now db).2 = db) := by
  constructor
  · intro e he
    unfold create_user at he ⊢
    rcases hfind : db.rows.find? (fun u => u.email == user.email) with
        - | w <;> simp only [hfind] at he ⊢
    split_ifs at he ⊢ <;> simp_all
  · intro e he
    unfold update_user at he ⊢
    rcases hfind : db.rows.find? (fun u => u.id == user_id) with
        - | w <;> simp only [hfind] at he ⊢
    rcases happ : applyUpdate user_id uu now db w with e' | u' <;>
      simp_all

/-- C10 witness: a conflicting create and a rejected update both leave
the concrete state untouched. -/
theorem C10_witness :
    (create_user
        { name := "Bob", email := "ann@x.com", age := 7, sex := "Male" }
        9 db0).2 = db0 ∧
    (update_user 1
        { name := none, email := none, age := some 3, sex := none }
        9 db0).2 = db0 := by
  have h := C10_write_errors_preserve_state
    { name := "Bob", email := "ann@x.com", age := 7, sex := "Male" }
    1 { name := none, email := none, age := some 3, sex := none } 9 db0
  exact ⟨h.1 (Err.conflict "Email already in use") rfl,
    h.2 (Err.validation "Please enter a valid age") rfl⟩

/-- Once the email step has succeeded, the remaining steps of
`applyUpdate` are fully determined: a present age is rejected, else a
present sex is rejected, else only `updated_at` changes further. -/
theorem applyUpdate_of_applyEmail_ok (user_id : Nat) {uu : UserUpdate}
    (now : Nat) (db : DB) (u0 u2 : User)
    (hAE : applyEmail user_id uu db (applyName uu u0) = .ok u2) :
    applyUpdate user_id uu now db u0 =
      match uu.age with
      | some _ => .error (.validation "Please enter a valid age")
      | none =>
        match uu.sex with
        | some _ => .error (.validation "Please enter Female or Male")
        | none => .ok { u2 with updated_at := some now } := by
  unfold applyUpdate
  rcases hag : uu.age with - | a
  · rcases hsx : uu.sex with - | sx
    · simp [hAE, applyAge_none hag, applySex_none hsx, hag, hsx,
        Bind.bind, Except.bind, pure, Except.pure]
    · simp [hAE, applyAge_none hag, applySex_some hsx, hag, hsx,
        Bind.bind, Except.bind, pure, Except.pure]
  · simp [hAE, applyAge_some hag, hag, Bind.bind, Except.bind,
      pure, Except.pure]

/-- C7: on an existing user, an update carrying only the name succeeds;
the stored row keeps its email, age and sex, takes the supplied name,
and gets `updated_at` set to the current time; the committed state
replaces exactly the row with that id. -/
theorem C7_name_only_update (user_id : Nat) (uu : UserUpdate) (now : Nat)
    (db : DB) (target : User) (n : String)
    (hfound : db.rows.find? (fun u => u.id == user_id) = some target)
    (hn : uu.name = some n) (he : uu.email = none)
    (ha : uu.age = none) (hs : uu.sex = none) :
    ∃ r, update_user user_id uu now db =
        (.ok r, { db with rows := db.rows.map (fun u =>
            if u.id == user_id then
              { target with name := n, updated_at := some now }
            else u) }) ∧
      r.name = n ∧ r.email = target.email ∧ r.age = target.age ∧
      r.sex = target.sex ∧ r.updated_at = some now := by
  have hname : applyName uu target = { target with name := n } := by
    simp [applyName, hn]
  have hAE : applyEmail user_id uu db (applyName uu target)
      = .ok { target with name := n } := by
    rw [applyEmail_none user_id db he (applyName uu target), hname]
  have happ := applyUpdate_of_applyEmail_ok user_id now db target
    { target with name := n } hAE
  simp only [ha, hs] at happ
  refine ⟨UserRead.from_orm { target with name := n, updated_at := some now },
    ?_, rfl, rfl, rfl, rfl, rfl⟩
  simp [update_user, hfound, happ, UserRead.from_orm]

/-- C7 witness: renaming the single stored user changes only the name
and the update timestamp. -/
theorem C7_witness :
    ∃ r, (update_user 1
        { name := some "Anne", email := none, age := none, sex := none }
        5 db0).1 = .ok r ∧
      r.name = "Anne" ∧ r.email = "ann@x.com" := by
  obtain ⟨r, hr, h1, h2, -, -, -⟩ := C7_name_only_update 1
    { name := some "Anne", email := none, age := none, sex := none }
    5 db0 annUser "Anne" rfl rfl rfl rfl rfl
  exact ⟨r, by rw [hr], h1, h2.trans rfl⟩

/-- Under the email-uniqueness invariant, two stored rows with the same
email are the same row. -/
theorem row_eq_of_email_eq {db : DB} (h : db.emailsNodup) {v w : User}
    (hv : v ∈ db.rows) (hw : w ∈ db.rows) (he : v.email = w.email) :
    v = w :=
  List.inj_on_of_nodup_map h hv hw he

/-- C6: in the partial-update operation with email present, under the
maintained email-uniqueness invariant: if the supplied email belongs to
a row with a different id, the operation fails with Conflict and the
state is unchanged; if it equals the target's own current email, no
Conflict is ever signalled, and when age and sex are also absent the
update succeeds with that email stored. -/
theorem C6_update_email_conflict (user_id : Nat) (uu : UserUpdate)
    (now : Nat) (db : DB) (target : User) (e : String)
    (hem : db.emailsNodup)
    (hfound : db.rows.find? (fun u => u.id == user_id) = some target)
    (he : uu.email = some e) :
    ((∃ v ∈ db.rows, v.email = e ∧ v.id ≠ user_id) →
      update_user user_id uu now db
        = (.error (.conflict "Email already registered"), db)) ∧
    (e = target.email →
      (∀ s, (update_user user_id uu now db).1 ≠ .error (.conflict s)) ∧
      (uu.age = none → uu.sex = none →
        ∃ r, (update_user user_id uu now db).1 = .ok r ∧
          r.email = e)) := by
  constructor
  · rintro ⟨v, hv, hve, hvid⟩
    have hsome : (db.rows.find? (fun u => u.email == e)).isSome = true :=
      List.find?_isSome.2 ⟨v, hv, by simp [hve]⟩
    obtain ⟨w, hw⟩ := Option.isSome_iff_exists.mp hsome
    have hwe : w.email = e := by simpa using List.find?_some hw
    have hwv : w = v := row_eq_of_email_eq hem
      (List.mem_of_find?_eq_some hw) hv (by rw [hwe, hve])
    have hwid : (w.id != user_id) = true := by simp [hwv, hvid]
    have happ : applyUpdate user_id uu now db target
        = .error (.conflict "Email already registered") := by
      unfold applyUpdate
      simp [applyEmail, he, hw, hwid, Bind.bind, Except.bind]
    simp [update_user, hfound, happ]
  · rintro rfl
    have htmem := List.mem_of_find?_eq_some hfound
    have htid : target.id = user_id := by
      simpa using List.find?_some hfound
    have hsome :
        (db.rows.find? (fun u => u.email == target.email)).isSome
          = true := List.find?_isSome.2 ⟨target, htmem, by simp⟩
    obtain ⟨w, hw⟩ := Option.isSome_iff_exists.mp hsome
    have hwe : w.email = target.email := by
      simpa using List.find?_some hw
    have hwt : w = target := row_eq_of_email_eq hem
      (List.mem_of_find?_eq_some hw) htmem hwe
    have hwid : (w.id != user_id) = false := by simp [hwt, htid]
    have hAE : applyEmail user_id uu db (applyName uu target)
        = .ok { applyName uu target with email := target.email } := by
      simp [applyEmail, he, hw, hwid]
    have happ := applyUpdate_of_applyEmail_ok user_id now db target
      { applyName uu target with email := target.email } hAE
    constructor
    · intro s
      rcases hag : uu.age with - | a
      · rcases hsx : uu.sex with - | sx
        · simp only [hag, hsx] at happ
          simp [update_user, hfound, happ]
        · simp only [hag, hsx] at happ
          simp [update_user, hfound, happ]
      · simp only [hag] at happ
        simp [update_user, hfound, happ]
    · intro hag hsx
      simp only [hag, hsx] at happ
      refine ⟨UserRead.from_orm { applyName uu target with email := target.email, updated_at := some now }, ?_, rfl⟩
      simp [update_user, hfound, happ]

/-- C6 witness: in a two-row state, moving the second user onto the
first user's email conflicts, and re-submitting a user's own email does
not. -/
theorem C6_witness :
    update_user 2
        { name := none, email := some "ann@x.com", age := none,
          sex := none } 8 db1
      = (.error (.conflict "Email already registered"), db1) ∧
    ∃ r, (update_user 1
        { name := none, email := some "ann@x.com", age := none,
          sex := none } 8 db0).1 = .ok r ∧ r.email = "ann@x.com" := by
  constructor
  · exact (C6_update_email_conflict 2
      { name := none, email := some "ann@x.com", age := none,
        sex := none } 8 db1 bobUser "ann@x.com"
      (by unfold DB.emailsNodup; decide) rfl rfl).1
      ⟨annUser, by simp [db1], rfl, by decide⟩
  · exact ((C6_update_email_conflict 1
      { name := none, email := some "ann@x.com", age := none,
        sex := none } 8 db0 annUser "ann@x.com"
      (by unfold DB.emailsNodup; decide) rfl rfl).2 rfl).2 rfl rfl

/-- Under the primary-key uniqueness invariant, after erasing the row
with a given id no remaining row carries that id. -/
theorem eraseP_id_ne {l : List User}
    (hnd : (l.map User.id).Nodup) (n : Nat) :
    ∀ u ∈ l.eraseP (fun v => v.id == n), u.id ≠ n := by
  induction l with
  | nil => simp
  | cons x xs ih =>
    have hx : x.id ∉ xs.map User.id :=
      (List.nodup_cons.mp (by simpa using hnd)).1
    have hxs : (xs.map User.id).Nodup :=
      (List.nodup_cons.mp (by simpa using hnd)).2
    intro u hu
    cases hbx : (x.id == n) with
    | true =>
      rw [List.eraseP_cons, hbx] at hu
      simp only [cond_true] at hu
      intro hun
      have hxn : x.id = n := by simpa using hbx
      exact hx (List.mem_map.2 ⟨u, hu, by rw [hun, hxn]⟩)
    | false =>
      rw [List.eraseP_cons, hbx] at hu
      simp only [cond_false] at hu
      rcases List.mem_cons.mp hu with rfl | hu'
      · simpa using hbx
      · exact ih hxs u hu'

/-- C9: deleting an existing id removes exactly that row (the list
shrinks by one and, by primary-key uniqueness, no remaining row has the
id), returns the confirmation body, and a subsequent read by the same
id signals Not-Found. -/
theorem C9_delete_existing (user_id : Nat) (db : DB) (target : User)
    (hnd : db.idsNodup)
    (hfound : db.rows.find? (fun u => u.id == user_id) = some target) :
    (delete_user user_id db).1
        = .ok { message := "User has been deleted" } ∧
      (delete_user user_id db).2.rows
        = db.rows.eraseP (fun u => u.id == target.id) ∧
      (delete_user user_id db).2.rows.length + 1 = db.rows.length ∧
      read_user user_id (delete_user user_id db).2
        = .error (.notFound "User not found") := by
  have htid : target.id = user_id := by simpa using List.find?_some hfound
  have htmem := List.mem_of_find?_eq_some hfound
  have hdel : delete_user user_id db
      = (.ok { message := "User has been deleted" },
         { db with rows := db.rows.eraseP (fun u => u.id == target.id) }) := by
    simp [delete_user, hfound]
  have hlen : (db.rows.eraseP (fun u => u.id == target.id)).length + 1
      = db.rows.length :=
    List.length_eraseP_add_one htmem (by simp)
  have hnone :
      (db.rows.eraseP (fun v => v.id == target.id)).find?
        (fun u => u.id == user_id) = none :=
    List.find?_eq_none.2 (fun u hu => by
      have := eraseP_id_ne hnd target.id u hu
      simp [htid ▸ this])
  rw [hdel]
  exact ⟨rfl, rfl, hlen, by simp [read_user, hnone]⟩

/-- C9 witness: deleting the single stored user returns the message and
makes a subsequent read fail with Not-Found. -/
theorem C9_witness :
    (delete_user 1 db0).1 = .ok { message := "User has been deleted" } ∧
      read_user 1 (delete_user 1 db0).2
        = .error (.notFound "User not found") := by
  have h := C9_delete_existing 1 db0 annUser
    (by unfold DB.idsNodup; decide) rfl
  exact ⟨h.1, h.2.2.2⟩

end UserAPI
